import Mathlib

/-!
Verification of the cothority transactional store, Calypso contracts and
chain-configuration client against their specification.

The Go and Java sources are shallowly embedded: byte strings become `List Nat`,
the boltdb bucket becomes an association list, protobuf payloads become a tagged
`Value` type whose decoders succeed exactly on the matching tag, and the
external RPC / proof-check capabilities become explicit oracle fields.
-/

namespace Trie

/-- Byte strings, modelled as lists of bytes. -/
abbrev Bytes := List Nat

/-- The contents of one boltdb bucket: an association list of key/value pairs. -/
abbrev Bucket := List (Bytes × Bytes)

/-- Model of the boltdb database as seen through `diskDB`: the single logical
bucket named by `diskDB.bucket`, which may be absent (`none`). -/
structure diskDB where
  bucket : Option Bucket
deriving DecidableEq

/-- Errors surfaced by the transaction entry points. `user e` wraps an error
returned by the caller-supplied transaction function; `dryRunSentinel` models
the fresh `dryRunErr` value allocated inside `UpdateDryRun` (a fresh Go error
value, hence distinct from every error the function itself can return);
`bucketMissing` models the `bucket does not exist` error. -/
inductive TxErr (ε : Type) where
  | bucketMissing
  | dryRunSentinel
  | user (e : ε)
deriving DecidableEq

/-- Model of `bolt.DB.Update`: run the closure on the current state; commit the
state the closure produced iff it returned no error, otherwise roll back. -/
def boltUpdate {ε : Type} (r : diskDB)
    (f : Option Bucket → Option Bucket × Option (TxErr ε)) :
    diskDB × Option (TxErr ε) :=
  match f r.bucket with
  | (b2, none) => (⟨b2⟩, none)
  | (_, some e) => (r, some e)

/-- Models `diskDB.Update`: read-write transaction.  The caller function mutates the
bucket and may return an error; an error aborts and discards the mutations. -/
def diskDB.Update {ε : Type} (r : diskDB) (f : Bucket → Bucket × Option ε) :
    diskDB × Option (TxErr ε) :=
  boltUpdate r (fun ob =>
    match ob with
    | none => (none, some TxErr.bucketMissing)
    | some b =>
      match f b with
      | (b2, oe) => (some b2, oe.map TxErr.user))

/-- Models `diskDB.View`: read-only transaction; returns only the error outcome since
the store is never modified. -/
def diskDB.View {ε : Type} (r : diskDB) (f : Bucket → Option ε) :
    Option (TxErr ε) :=
  match r.bucket with
  | none => some TxErr.bucketMissing
  | some b => (f b).map TxErr.user

/-- Models `diskDB.UpdateDryRun`: runs `f` inside a `bolt.Update`, but the inner
closure returns the fresh sentinel when `f` succeeds, so bolt always rolls
back; the outer wrapper then translates the sentinel back to success. -/
def diskDB.UpdateDryRun {ε : Type} (r : diskDB)
    (f : Bucket → Bucket × Option ε) : diskDB × Option (TxErr ε) :=
  let res := boltUpdate r (fun ob =>
    match ob with
    | none => (none, some TxErr.bucketMissing)
    | some b =>
      match f b with
      | (b2, some e) => (some b2, some (TxErr.user e))
      | (b2, none) => (some b2, some TxErr.dryRunSentinel))
  match res.2 with
  | some TxErr.dryRunSentinel => (res.1, none)
  | e => (res.1, e)

end Trie

namespace Trie

/-- A concrete bucket used to instantiate the store theorems. -/
def sampleBucket : Bucket := [([0], [1])]

/-- A store whose logical bucket exists. -/
def sampleDB : diskDB := ⟨some sampleBucket⟩

/-- A store whose logical bucket is absent. -/
def missingDB : diskDB := ⟨none⟩

/-- A transaction function that mutates the bucket and then fails. -/
def sampleFnErr : Bucket → Bucket × Option Nat :=
  fun _ => ([([2], [3])], some 5)

/-- A transaction function that mutates the bucket and succeeds. -/
def sampleFnOk : Bucket → Bucket × Option Nat :=
  fun b => (([9], [9]) :: b, none)

/-- A read-only transaction function that succeeds. -/
def sampleViewOk : Bucket → Option Nat := fun _ => none

/-- A read-only transaction function that fails. -/
def sampleViewErr : Bucket → Option Nat := fun _ => some 3

end Trie

/-- Fixed-width instance identifiers.  `bytes b` is a literal identifier (such
as the all-zero one); `derived p` models `Instruction.DeriveID`, the opaque
deterministic derivation of a fresh identifier from a spawning instruction
whose own identifier is `p`. -/
inductive InstanceID where
  | bytes (b : List Nat)
  | derived (parent : InstanceID)
deriving DecidableEq

namespace Calypso

/-- A node identity in a roster, compared by its identifier. -/
structure ServerIdentity where
  sid : Nat
deriving DecidableEq

/-- An ordered list of node identities (onet.Roster). -/
structure Roster where
  list : List ServerIdentity
deriving DecidableEq

/-- Models `onet.Roster.Search`: the index of the identity in the list, or `-1`. -/
def Roster.Search (r : Roster) (x : Nat) : Int :=
  match r.list.findIdx? (fun e => e.sid == x) with
  | some i => Int.ofNat i
  | none => -1

/-- Models `intersectRosters`: counts the members of `r2` found in `r1`. -/
def intersectRosters (r1 r2 : Roster) : Nat :=
  r2.list.foldl (fun res x => if r1.Search x.sid != -1 then res + 1 else res) 0

/-- A Calypso write request.  Its `CheckProof(suite, darcID)` capability is an
external opaque pass/fail oracle supplied inside the payload; it is modelled by
the set of darc identifiers the embedded proof checks out for. -/
structure Write where
  validFor : List Nat
deriving DecidableEq

/-- The external `Write.CheckProof` oracle: passes iff the payload's proof is
valid for the given darc identifier. -/
def Write.CheckProof (w : Write) (darcID : Nat) : Bool :=
  w.validFor.contains darcID

/-- A Calypso read request, referencing a write instance by identifier. -/
structure Read where
  write : InstanceID
deriving DecidableEq

/-- The LTS payload: the roster holding the long-term secret. -/
structure LtsInstanceInfo where
  roster : Roster
deriving DecidableEq

/-- Opaque byte payloads, tagged by what they are a protobuf encoding of:
`raw b` stands for bytes that decode as none of the three messages. -/
inductive Value where
  | writeV (w : Write)
  | readV (r : Read)
  | ltsV (i : LtsInstanceInfo)
  | raw (b : List Nat)
deriving DecidableEq

/-- Models `protobuf.DecodeWithConstructors` into a `Write`. -/
def decodeWrite : Value → Option Write
  | .writeV w => some w
  | _ => none

/-- Models `protobuf.DecodeWithConstructors` into a `Read`. -/
def decodeRead : Value → Option Read
  | .readV r => some r
  | _ => none

/-- Models `protobuf.DecodeWithConstructors` into an `LtsInstanceInfo`. -/
def decodeLts : Value → Option LtsInstanceInfo
  | .ltsV i => some i
  | _ => none

/-- The distinct error values produced by the Calypso contracts (one
constructor per `errors.New` message) together with `notFound`, the error a
state-trie lookup returns for an absent key. -/
inductive CalErr where
  | notFound
  | needWriteArg
  | badWriteArg
  | proofFailed
  | needReadArg
  | badReadArg
  | refIncorrect
  | refNotWrite
  | onlyWritesReads
  | onlyLTS
  | needLtsArg
  | badLtsArg
  | badCurInfo
  | noOverlap
  | onlyReshare
  | readNeverInstantiated
deriving DecidableEq

/-- The spec's `InvalidReference` condition groups the two reference-check
failures of the Read spawn. -/
def CalErr.isInvalidReference : CalErr → Bool
  | .refIncorrect => true
  | .refNotWrite => true
  | _ => false

/-- One stored instance: value, version, contract tag and owning darc. -/
structure StateEntry where
  value : Value
  version : Nat
  contractID : String
  darcID : Nat
deriving DecidableEq

/-- The read-only state trie, as an association list keyed by instance id. -/
abbrev ReadOnlyStateTrie := List (InstanceID × StateEntry)

/-- Models `ReadOnlyStateTrie.GetValues`: returns
`(value, version, contractID, darcID)` or an error for an absent key. -/
def getValues (rst : ReadOnlyStateTrie) (iid : InstanceID) :
    Except CalErr (Value × Nat × String × Nat) :=
  match rst.find? (fun kv => decide (kv.1 = iid)) with
  | some kv => .ok (kv.2.value, kv.2.version, kv.2.contractID, kv.2.darcID)
  | none => .error .notFound

/-- Models `ContractWriteID` references a write contract system-wide. -/
def ContractWriteID : String := "calypsoWrite"

/-- Models `ContractReadID` references a read contract system-wide. -/
def ContractReadID : String := "calypsoRead"

/-- Models `ContractLongTermSecretID` is the contract ID for updating the LTS roster. -/
def ContractLongTermSecretID : String := "longTermSecret"

/-- Named instruction arguments. -/
abbrev Arguments := List (String × Value)

/-- Models `Arguments.Search`: first argument with the given name, if any (a `nil` or
empty byte string is folded into `none`). -/
def argsSearch (args : Arguments) (n : String) : Option Value :=
  match args.find? (fun a => a.1 == n) with
  | some a => some a.2
  | none => none

/-- A `Spawn` instruction: the target instance, the contract id named in the
spawn arguments, and the named arguments. -/
structure SpawnInstr where
  instanceID : InstanceID
  contractID : String
  args : Arguments
deriving DecidableEq

/-- Models `Instruction.DeriveID ""` for a spawn instruction. -/
def SpawnInstr.DeriveID (inst : SpawnInstr) : InstanceID :=
  .derived inst.instanceID

/-- An `Invoke` instruction: target instance, command, named arguments. -/
structure InvokeInstr where
  instanceID : InstanceID
  command : String
  args : Arguments
deriving DecidableEq

/-- Models `Instruction.DeriveID ""` for an invoke instruction. -/
def InvokeInstr.DeriveID (inst : InvokeInstr) : InstanceID :=
  .derived inst.instanceID

/-- StateChange actions. -/
inductive Action where
  | create
  | update
  | remove
deriving DecidableEq

/-- An intent to mutate one instance, as produced by `NewStateChange`. -/
structure StateChange where
  action : Action
  instanceID : InstanceID
  contractID : String
  value : Value
  darcID : Nat
deriving DecidableEq

/-- Coins are carried through opaquely. -/
abbrev Coin := Nat

/-- Models `contractWr.Spawn`, returning the `(sc, cout, err)` triple of the Go
function (named return values: `cout` starts as `coins`, the Read branch
returns `nil, nil, err` explicitly on its error paths). -/
def contractWr.Spawn (rst : ReadOnlyStateTrie) (inst : SpawnInstr)
    (coins : List Coin) : List StateChange × List Coin × Option CalErr :=
  match getValues rst inst.instanceID with
  | .error e => ([], coins, some e)
  | .ok (_, _, _, darcID) =>
    if inst.contractID = ContractWriteID then
      match argsSearch inst.args "write" with
      | none => ([], coins, some .needWriteArg)
      | some w =>
        match decodeWrite w with
        | none => ([], coins, some .badWriteArg)
        | some wr =>
          if wr.CheckProof darcID then
            ([⟨.create, inst.DeriveID, ContractWriteID, w, darcID⟩],
              coins, none)
          else
            ([], coins, some .proofFailed)
    else if inst.contractID = ContractReadID then
      match argsSearch inst.args "read" with
      | none => ([], [], some .needReadArg)
      | some r =>
        match decodeRead r with
        | none => ([], [], some .badReadArg)
        | some rd =>
          match getValues rst rd.write with
          | .error _ => ([], [], some .refIncorrect)
          | .ok (_, _, wc, _) =>
            if wc ≠ ContractWriteID then
              ([], [], some .refNotWrite)
            else
              ([⟨.create, inst.DeriveID, ContractReadID, r, darcID⟩],
                coins, none)
    else
      ([], coins, some .onlyWritesReads)

/-- An instantiated contract, as returned by the `FromBytes` constructors. -/
inductive Contract where
  | wr (w : Write)
  | re (r : Read)
  | lts (i : LtsInstanceInfo)
deriving DecidableEq

/-- Models `contractWriteFromBytes`: decodes a stored write payload. -/
def contractWriteFromBytes (b : Value) : Except CalErr Contract :=
  match decodeWrite b with
  | some w => .ok (.wr w)
  | none => .error .badWriteArg

/-- Models `contractReadFromBytes`: Calypso read instances are never instantiated. -/
def contractReadFromBytes (_b : Value) : Except CalErr Contract :=
  .error .readNeverInstantiated

/-- Models `contractLTSFromBytes`: decodes a stored LTS payload. -/
def contractLTSFromBytes (b : Value) : Except CalErr Contract :=
  match decodeLts b with
  | some i => .ok (.lts i)
  | none => .error .badLtsArg

/-- Models `contractLTS.Spawn`. -/
def contractLTS.Spawn (rst : ReadOnlyStateTrie) (inst : SpawnInstr)
    (coins : List Coin) : List StateChange × List Coin × Option CalErr :=
  match getValues rst inst.instanceID with
  | .error e => ([], [], some e)
  | .ok (_, _, _, darcID) =>
    if inst.contractID ≠ ContractLongTermSecretID then
      ([], [], some .onlyLTS)
    else
      match argsSearch inst.args "lts_instance_info" with
      | none => ([], [], some .needLtsArg)
      | some infoBuf =>
        match decodeLts infoBuf with
        | none => ([], [], some .badLtsArg)
        | some _info =>
          ([⟨.create, inst.DeriveID, ContractLongTermSecretID, infoBuf,
              darcID⟩], coins, none)

/-- Models `contractLTS.Invoke`: the `reshare` command with its Byzantine-safe
roster-overlap threshold `n - (n-1)/3`. -/
def contractLTS.Invoke (rst : ReadOnlyStateTrie) (inst : InvokeInstr)
    (coins : List Coin) : List StateChange × List Coin × Option CalErr :=
  match getValues rst inst.instanceID with
  | .error e => ([], [], some e)
  | .ok (curBuf, _, _, darcID) =>
    if inst.command ≠ "reshare" then
      ([], [], some .onlyReshare)
    else
      match argsSearch inst.args "lts_instance_info" with
      | none => ([], [], some .needLtsArg)
      | some infoBuf =>
        match decodeLts infoBuf with
        | none => ([], [], some .badLtsArg)
        | some newInfo =>
          match decodeLts curBuf with
          | none => ([], [], some .badCurInfo)
          | some curInfo =>
            let n := curInfo.roster.list.length
            let overlap := intersectRosters curInfo.roster newInfo.roster
            let thr := n - (n - 1) / 3
            if overlap < thr then
              ([], [], some .noOverlap)
            else
              ([⟨.update, inst.instanceID, ContractLongTermSecretID, infoBuf,
                  darcID⟩], coins, none)

end Calypso

namespace ChainConfig

/-- The configuration payload stored in the chain-config instance (opaque). -/
structure ChainConfigData where
  payload : Nat
deriving DecidableEq

/-- A generic ledger instance as seen by the Java client: identifier, contract
tag and (decoded) data. -/
structure JInstance where
  id : InstanceID
  contractId : String
  data : ChainConfigData
deriving DecidableEq

/-- Exceptions thrown by the client: `notFound` models
`CothorityNotFoundException`, `comm` models `CothorityCommunicationException`. -/
inductive CothErr where
  | notFound
  | comm
deriving DecidableEq

/-- The Java `Instruction` restricted to what `ChainConfigInstance` builds: a
target instance, signer counters, and an `Invoke` carrying command, contract id
and serialized new configuration. -/
structure JInstruction where
  instanceID : InstanceID
  signerCounters : List Nat
  invokeCommand : String
  invokeContractID : String
  invokeData : ChainConfigData
deriving DecidableEq

/-- A signer, opaque. -/
abbrev Signer := Nat

/-- A client transaction: instructions plus the signers it was signed with. -/
structure ClientTransaction where
  instructions : List JInstruction
  signers : List Signer
deriving DecidableEq

/-- Models `ClientTransaction.signWith`. -/
def ClientTransaction.signWith (ct : ClientTransaction)
    (owners : List Signer) : ClientTransaction :=
  { ct with signers := owners }

/-- The ByzCoin RPC endpoint, as oracles: `fetch` models
`Instance.fromByzcoin(bc, id)`, the two send operations model
`sendTransaction` and `sendTransactionAndWait` (`none` = no exception). -/
structure ByzCoinRPC where
  fetch : InstanceID → Except CothErr JInstance
  sendTransaction : ClientTransaction → Option CothErr
  sendTransactionAndWait : ClientTransaction → Nat → Option CothErr

/-- Models `ChainConfigInstance.ContractId = "config"`. -/
def ContractId : String := "config"

/-- The all-zero instance identifier (`new InstanceId(new byte[32])`). -/
def zeroInstanceID : InstanceID := .bytes (List.replicate 32 0)

/-- The chain-config client object: the RPC handle, the loaded instance, and
the locally cached configuration. -/
structure ChainConfigInstance where
  bc : ByzCoinRPC
  inst : JInstance
  chainConfig : ChainConfigData

/-- The private `ChainConfigInstance` constructor: rejects any instance whose
contract tag is not `"config"` with `CothorityNotFoundException`. -/
def ChainConfigInstance.make (bc : ByzCoinRPC) (i : JInstance) :
    Except CothErr ChainConfigInstance :=
  if i.contractId ≠ ContractId then .error .notFound
  else .ok ⟨bc, i, i.data⟩

/-- Models `ChainConfigInstance.fromByzcoin(bc)`: loads the instance at the fixed
all-zero identifier and runs the constructor. -/
def fromByzcoin (bc : ByzCoinRPC) : Except CothErr ChainConfigInstance := do
  let i ← bc.fetch zeroInstanceID
  ChainConfigInstance.make bc i

/-- A proof as consumed here: `Instance.fromProof` extracts its instance. -/
structure JProof where
  inst : JInstance
deriving DecidableEq

/-- Models `Instance.fromProof`. -/
def instanceFromProof (p : JProof) : JInstance := p.inst

/-- Models `ChainConfigInstance.fromByzcoin(bc, proof)`. -/
def fromByzcoinProof (bc : ByzCoinRPC) (p : JProof) :
    Except CothErr ChainConfigInstance :=
  ChainConfigInstance.make bc (instanceFromProof p)

/-- Models `evolveChainConfigInstruction`: the `Invoke("update_config", ...)`
instruction against this instance. -/
def evolveChainConfigInstruction (self : ChainConfigInstance)
    (newConfig : ChainConfigData) (ownerCtrs : List Nat) : JInstruction :=
  ⟨self.inst.id, ownerCtrs, "update_config", ContractId, newConfig⟩

/-- The signed one-instruction transaction both send variants submit. -/
def evolveTx (self : ChainConfigInstance) (newConfig : ChainConfigData)
    (owners : List Signer) (ownerCtrs : List Nat) : ClientTransaction :=
  ClientTransaction.signWith
    ⟨[evolveChainConfigInstruction self newConfig ownerCtrs], []⟩ owners

/-- Models `evolveChainConfig`: fire-and-forget submission; the cached configuration
is never touched. -/
def evolveChainConfig (self : ChainConfigInstance)
    (newConfig : ChainConfigData) (owners : List Signer)
    (ownerCtrs : List Nat) : Except CothErr ChainConfigInstance :=
  match self.bc.sendTransaction (evolveTx self newConfig owners ownerCtrs) with
  | some e => .error e
  | none => .ok self

/-- Models `evolveConfigAndWait`: submit and wait `wait` finalization rounds; the
cached configuration is swapped only after the wait returns without error. -/
def evolveConfigAndWait (self : ChainConfigInstance)
    (newConfig : ChainConfigData) (owners : List Signer)
    (ownerCtrs : List Nat) (wait : Nat) : Except CothErr ChainConfigInstance :=
  match self.bc.sendTransactionAndWait
      (evolveTx self newConfig owners ownerCtrs) wait with
  | some e => .error e
  | none => .ok { self with chainConfig := newConfig }

end ChainConfig

namespace Calypso

/-- A concrete spawn-target instance identifier. -/
def iidA : InstanceID := .bytes [1]

/-- A concrete write-instance identifier. -/
def iidW : InstanceID := .bytes [2]

/-- A concrete identifier of an instance that is not a write instance. -/
def iidX : InstanceID := .bytes [3]

/-- A concrete LTS-instance identifier. -/
def iidLts : InstanceID := .bytes [4]

/-- A write request whose proof checks out for darc `10`. -/
def wrOk : Write := ⟨[10]⟩

/-- A write request whose proof checks out for no darc. -/
def wrBad : Write := ⟨[]⟩

/-- A current roster of 7 members, identities `0..6`. -/
def roster7 : Roster := ⟨(List.range 7).map (fun i => ⟨i⟩)⟩

/-- A new roster overlapping `roster7` in exactly 4 members. -/
def rosterOv4 : Roster := ⟨[⟨0⟩, ⟨1⟩, ⟨2⟩, ⟨3⟩, ⟨100⟩, ⟨101⟩, ⟨102⟩]⟩

/-- A new roster overlapping `roster7` in exactly 5 members. -/
def rosterOv5 : Roster := ⟨[⟨0⟩, ⟨1⟩, ⟨2⟩, ⟨3⟩, ⟨4⟩, ⟨100⟩, ⟨101⟩]⟩

/-- A concrete state trie holding a spawn target (darc 10), a write instance
(darc 20), a non-write instance (darc 30) and an LTS instance (darc 40). -/
def sampleRST : ReadOnlyStateTrie :=
  [(iidA, ⟨.raw [], 0, "darcContract", 10⟩),
    (iidW, ⟨.writeV wrOk, 0, ContractWriteID, 20⟩),
    (iidX, ⟨.raw [7], 0, "someOther", 30⟩),
    (iidLts, ⟨.ltsV ⟨roster7⟩, 0, ContractLongTermSecretID, 40⟩)]

/-- A well-formed write spawn. -/
def spawnWriteOk : SpawnInstr :=
  ⟨iidA, ContractWriteID, [("write", .writeV wrOk)]⟩

/-- A write spawn without the `write` argument. -/
def spawnWriteNoArg : SpawnInstr := ⟨iidA, ContractWriteID, []⟩

/-- A write spawn whose `write` argument does not decode. -/
def spawnWriteBadArg : SpawnInstr :=
  ⟨iidA, ContractWriteID, [("write", .raw [1])]⟩

/-- A write spawn whose proof check fails. -/
def spawnWriteBadProof : SpawnInstr :=
  ⟨iidA, ContractWriteID, [("write", .writeV wrBad)]⟩

/-- A read spawn referencing the existing write instance. -/
def spawnReadOkv : SpawnInstr :=
  ⟨iidA, ContractReadID, [("read", .readV ⟨iidW⟩)]⟩

/-- A read spawn referencing an absent instance. -/
def spawnReadMissingRef : SpawnInstr :=
  ⟨iidA, ContractReadID, [("read", .readV ⟨.bytes [99]⟩)]⟩

/-- A read spawn referencing an existing non-write instance. -/
def spawnReadNotWrite : SpawnInstr :=
  ⟨iidA, ContractReadID, [("read", .readV ⟨iidX⟩)]⟩

/-- A reshare invoke whose new roster overlaps the current one in 4 members. -/
def invokeReshare4 : InvokeInstr :=
  ⟨iidLts, "reshare", [("lts_instance_info", .ltsV ⟨rosterOv4⟩)]⟩

/-- A reshare invoke whose new roster overlaps the current one in 5 members. -/
def invokeReshare5 : InvokeInstr :=
  ⟨iidLts, "reshare", [("lts_instance_info", .ltsV ⟨rosterOv5⟩)]⟩

end Calypso

namespace ChainConfig

/-- A concrete stored configuration. -/
def cfgOld : ChainConfigData := ⟨1⟩

/-- A concrete replacement configuration. -/
def cfgNew : ChainConfigData := ⟨2⟩

/-- The chain-config instance at the all-zero id with the right tag. -/
def goodInstance : JInstance := ⟨zeroInstanceID, ContractId, cfgOld⟩

/-- An instance at the all-zero id with a wrong contract tag. -/
def badInstance : JInstance := ⟨zeroInstanceID, "value", cfgOld⟩

/-- An RPC whose fetch and sends all succeed. -/
def okRPC : ByzCoinRPC :=
  ⟨fun _ => .ok goodInstance, fun _ => none, fun _ _ => none⟩

/-- An RPC that fetches the wrongly-tagged instance. -/
def badTagRPC : ByzCoinRPC :=
  ⟨fun _ => .ok badInstance, fun _ => none, fun _ _ => none⟩

/-- An RPC whose fetch fails with a communication error. -/
def errRPC : ByzCoinRPC :=
  ⟨fun _ => .error .comm, fun _ => none, fun _ _ => none⟩

/-- An RPC whose send operations fail with a communication error. -/
def failSendRPC : ByzCoinRPC :=
  ⟨fun _ => .ok goodInstance, fun _ => some .comm, fun _ _ => some .comm⟩

/-- A loaded chain-config client on the succeeding RPC. -/
def sampleCCI : ChainConfigInstance := ⟨okRPC, goodInstance, cfgOld⟩

/-- A loaded chain-config client whose sends fail. -/
def failingCCI : ChainConfigInstance := ⟨failSendRPC, goodInstance, cfgOld⟩

end ChainConfig

/-- C1: `UpdateDryRun(fn)` leaves the store's persisted contents exactly as
they were before the call — all mutations made by `fn` are discarded whether
`fn` succeeds or fails — and its return value is exactly `fn`'s own error:
`none` when `fn` succeeds, `fn`'s error otherwise; the internal discard
sentinel is never returned to the caller. -/
theorem updateDryRun_discards_and_propagates {ε : Type} (r : Trie.diskDB)
    (f : Trie.Bucket → Trie.Bucket × Option ε) (b : Trie.Bucket)
    (hb : r.bucket = some b) :
    (r.UpdateDryRun f).1 = r ∧
    (r.UpdateDryRun f).2 = Option.map Trie.TxErr.user (f b).2 ∧
    (r.UpdateDryRun f).2 ≠ some Trie.TxErr.dryRunSentinel := by
  obtain ⟨ob⟩ := r
  simp only at hb
  subst hb
  rcases hf : f b with ⟨b2, _ | e⟩ <;>
    simp [Trie.diskDB.UpdateDryRun, Trie.boltUpdate, hf]

/-- Witness for C1 at a concrete store with a failing and a succeeding
transaction function. -/
theorem updateDryRun_discards_and_propagates_witness :
    ((Trie.sampleDB.UpdateDryRun Trie.sampleFnErr).1 = Trie.sampleDB ∧
      (Trie.sampleDB.UpdateDryRun Trie.sampleFnErr).2 =
        Option.map Trie.TxErr.user (Trie.sampleFnErr Trie.sampleBucket).2 ∧
      (Trie.sampleDB.UpdateDryRun Trie.sampleFnErr).2 ≠
        some Trie.TxErr.dryRunSentinel) ∧
    ((Trie.sampleDB.UpdateDryRun Trie.sampleFnOk).1 = Trie.sampleDB ∧
      (Trie.sampleDB.UpdateDryRun Trie.sampleFnOk).2 =
        Option.map Trie.TxErr.user (Trie.sampleFnOk Trie.sampleBucket).2 ∧
      (Trie.sampleDB.UpdateDryRun Trie.sampleFnOk).2 ≠
        some Trie.TxErr.dryRunSentinel) :=
  ⟨updateDryRun_discards_and_propagates Trie.sampleDB Trie.sampleFnErr
      Trie.sampleBucket rfl,
    updateDryRun_discards_and_propagates Trie.sampleDB Trie.sampleFnOk
      Trie.sampleBucket rfl⟩

/-- C6: on a store whose logical bucket does not exist, each of `Update`,
`View` and `UpdateDryRun` fails with the bucket-missing (`StoreUnavailable`)
condition, the transaction function is never invoked (the outcome is
independent of it), and the store's contents are unchanged. -/
theorem missingBucket_fails {ε : Type} (r : Trie.diskDB)
    (f g : Trie.Bucket → Trie.Bucket × Option ε)
    (fv gv : Trie.Bucket → Option ε) (h : r.bucket = none) :
    r.Update f = (r, some Trie.TxErr.bucketMissing) ∧
    r.Update f = r.Update g ∧
    r.View fv = some Trie.TxErr.bucketMissing ∧
    r.View fv = r.View gv ∧
    r.UpdateDryRun f = (r, some Trie.TxErr.bucketMissing) ∧
    r.UpdateDryRun f = r.UpdateDryRun g := by
  obtain ⟨ob⟩ := r
  simp only at h
  subst h
  simp [Trie.diskDB.Update, Trie.diskDB.View, Trie.diskDB.UpdateDryRun,
    Trie.boltUpdate]

/-- Witness for C6 at the concrete store with an absent bucket. -/
theorem missingBucket_fails_witness :
    Trie.missingDB.Update Trie.sampleFnErr =
      (Trie.missingDB, some Trie.TxErr.bucketMissing) ∧
    Trie.missingDB.Update Trie.sampleFnErr =
      Trie.missingDB.Update Trie.sampleFnOk ∧
    Trie.missingDB.View Trie.sampleViewOk =
      some Trie.TxErr.bucketMissing ∧
    Trie.missingDB.View Trie.sampleViewOk =
      Trie.missingDB.View Trie.sampleViewErr ∧
    Trie.missingDB.UpdateDryRun Trie.sampleFnErr =
      (Trie.missingDB, some Trie.TxErr.bucketMissing) ∧
    Trie.missingDB.UpdateDryRun Trie.sampleFnErr =
      Trie.missingDB.UpdateDryRun Trie.sampleFnOk :=
  missingBucket_fails Trie.missingDB Trie.sampleFnErr Trie.sampleFnOk
    Trie.sampleViewOk Trie.sampleViewErr rfl

namespace Calypso

/-- C4: a write spawn fails with `MissingArgument` when the `write` payload is
absent, `DecodeError` when it does not decode, `InvalidProof` when the external
`CheckProof` check fails, and otherwise emits exactly one `Create` StateChange
whose instance id is derived from the spawning instruction, whose contract id
is the Write contract's id, and whose policy id is the spawning instance's. -/
theorem write_spawn_cases (rst : ReadOnlyStateTrie) (inst : SpawnInstr)
    (coins : List Coin) (v : Value) (ver : Nat) (cid : String) (darcID : Nat)
    (hgv : getValues rst inst.instanceID = .ok (v, ver, cid, darcID))
    (hcid : inst.contractID = ContractWriteID) :
    (argsSearch inst.args "write" = none →
      contractWr.Spawn rst inst coins = ([], coins, some CalErr.needWriteArg)) ∧
    (∀ w, argsSearch inst.args "write" = some w →
      (decodeWrite w = none →
        contractWr.Spawn rst inst coins = ([], coins, some CalErr.badWriteArg)) ∧
      (∀ wr, decodeWrite w = some wr →
        (wr.CheckProof darcID = false →
          contractWr.Spawn rst inst coins =
            ([], coins, some CalErr.proofFailed)) ∧
        (wr.CheckProof darcID = true →
          contractWr.Spawn rst inst coins =
            ([⟨Action.create, inst.DeriveID, ContractWriteID, w, darcID⟩],
              coins, none)))) := by
  constructor
  · intro h
    simp [contractWr.Spawn, hgv, hcid, h]
  · intro w hw
    constructor
    · intro hd
      simp [contractWr.Spawn, hgv, hcid, hw, hd]
    · intro wr hwr
      constructor
      · intro hp
        simp [contractWr.Spawn, hgv, hcid, hw, hwr, hp]
      · intro hp
        simp [contractWr.Spawn, hgv, hcid, hw, hwr, hp]

/-- Witness for C4: the four outcomes at concrete instructions. -/
theorem write_spawn_cases_witness :
    contractWr.Spawn sampleRST spawnWriteNoArg [1] =
      ([], [1], some CalErr.needWriteArg) ∧
    contractWr.Spawn sampleRST spawnWriteBadArg [1] =
      ([], [1], some CalErr.badWriteArg) ∧
    contractWr.Spawn sampleRST spawnWriteBadProof [1] =
      ([], [1], some CalErr.proofFailed) ∧
    contractWr.Spawn sampleRST spawnWriteOk [1] =
      ([⟨Action.create, spawnWriteOk.DeriveID, ContractWriteID,
          Value.writeV wrOk, 10⟩], [1], none) :=
  ⟨(write_spawn_cases sampleRST spawnWriteNoArg [1] (.raw []) 0 "darcContract"
      10 rfl rfl).1 rfl,
    ((write_spawn_cases sampleRST spawnWriteBadArg [1] (.raw []) 0
      "darcContract" 10 rfl rfl).2 (.raw [1]) rfl).1 rfl,
    (((write_spawn_cases sampleRST spawnWriteBadProof [1] (.raw []) 0
      "darcContract" 10 rfl rfl).2 (.writeV wrBad) rfl).2 wrBad rfl).1 rfl,
    (((write_spawn_cases sampleRST spawnWriteOk [1] (.raw []) 0 "darcContract"
      10 rfl rfl).2 (.writeV wrOk) rfl).2 wrOk rfl).2 rfl⟩

/-- C3: a read spawn fails with `InvalidReference` when the referenced
instance is absent, fails with `InvalidReference` when it exists with a
contract id other than the Write contract's, and otherwise emits exactly one
`Create` StateChange for the new Read instance. -/
theorem read_spawn_reference (rst : ReadOnlyStateTrie) (inst : SpawnInstr)
    (coins : List Coin) (v : Value) (ver : Nat) (cid : String) (darcID : Nat)
    (r : Value) (rd : Read)
    (hgv : getValues rst inst.instanceID = .ok (v, ver, cid, darcID))
    (hcid : inst.contractID = ContractReadID)
    (hr : argsSearch inst.args "read" = some r)
    (hrd : decodeRead r = some rd) :
    (∀ e, getValues rst rd.write = .error e →
      contractWr.Spawn rst inst coins = ([], [], some CalErr.refIncorrect) ∧
      CalErr.refIncorrect.isInvalidReference = true) ∧
    (∀ wv wver wc wd, getValues rst rd.write = .ok (wv, wver, wc, wd) →
      (wc ≠ ContractWriteID →
        contractWr.Spawn rst inst coins = ([], [], some CalErr.refNotWrite) ∧
        CalErr.refNotWrite.isInvalidReference = true) ∧
      (wc = ContractWriteID →
        contractWr.Spawn rst inst coins =
          ([⟨Action.create, inst.DeriveID, ContractReadID, r, darcID⟩],
            coins, none))) := by
  have hrw : ContractReadID ≠ ContractWriteID := by decide
  constructor
  · intro e he
    refine ⟨?_, rfl⟩
    simp [contractWr.Spawn, hgv, hcid, hr, hrd, he, hrw]
  · intro wv wver wc wd hok
    constructor
    · intro hne
      refine ⟨?_, rfl⟩
      simp [contractWr.Spawn, hgv, hcid, hr, hrd, hok, hne, hrw]
    · intro heq
      simp [contractWr.Spawn, hgv, hcid, hr, hrd, hok, heq, hrw]

/-- Witness for C3: the three outcomes at concrete instructions. -/
theorem read_spawn_reference_witness :
    contractWr.Spawn sampleRST spawnReadMissingRef [1] =
      ([], [], some CalErr.refIncorrect) ∧
    contractWr.Spawn sampleRST spawnReadNotWrite [1] =
      ([], [], some CalErr.refNotWrite) ∧
    contractWr.Spawn sampleRST spawnReadOkv [1] =
      ([⟨Action.create, spawnReadOkv.DeriveID, ContractReadID,
          Value.readV ⟨iidW⟩, 10⟩], [1], none) :=
  ⟨((read_spawn_reference sampleRST spawnReadMissingRef [1] (.raw []) 0
      "darcContract" 10 (.readV ⟨.bytes [99]⟩) ⟨.bytes [99]⟩ rfl rfl rfl
      rfl).1 CalErr.notFound rfl).1,
    (((read_spawn_reference sampleRST spawnReadNotWrite [1] (.raw []) 0
      "darcContract" 10 (.readV ⟨iidX⟩) ⟨iidX⟩ rfl rfl rfl rfl).2 (.raw [7]) 0
      "someOther" 30 rfl).1 (by decide)).1,
    ((read_spawn_reference sampleRST spawnReadOkv [1] (.raw []) 0
      "darcContract" 10 (.readV ⟨iidW⟩) ⟨iidW⟩ rfl rfl rfl rfl).2
      (.writeV wrOk) 0 ContractWriteID 20 rfl).2 rfl⟩

end Calypso

namespace Calypso

/-- C10: a successful read spawn emits a Create StateChange carrying the
policy (darc) id of the instance targeted by the spawn instruction itself —
looked up before the branch on contract id — not the policy id of the write
instance the read grant references. -/
theorem read_spawn_uses_target_darc (rst : ReadOnlyStateTrie)
    (inst : SpawnInstr) (coins : List Coin) (v : Value) (ver : Nat)
    (cid : String) (dT : Nat) (r : Value) (rd : Read) (wv : Value) (wver : Nat)
    (dW : Nat)
    (hgv : getValues rst inst.instanceID = .ok (v, ver, cid, dT))
    (hcid : inst.contractID = ContractReadID)
    (hr : argsSearch inst.args "read" = some r)
    (hrd : decodeRead r = some rd)
    (hw : getValues rst rd.write = .ok (wv, wver, ContractWriteID, dW)) :
    contractWr.Spawn rst inst coins =
      ([⟨Action.create, inst.DeriveID, ContractReadID, r, dT⟩], coins, none) ∧
    (dW ≠ dT →
      ∀ sc ∈ (contractWr.Spawn rst inst coins).1, sc.darcID ≠ dW) := by
  have hrw : ContractReadID ≠ ContractWriteID := by decide
  have hmain : contractWr.Spawn rst inst coins =
      ([⟨Action.create, inst.DeriveID, ContractReadID, r, dT⟩], coins, none) := by
    simp [contractWr.Spawn, hgv, hcid, hr, hrd, hw, hrw]
  refine ⟨hmain, ?_⟩
  intro hne sc hsc
  rw [hmain] at hsc
  simp only [List.mem_singleton] at hsc
  subst hsc
  simpa using fun h => hne h.symm

/-- Witness for C10: the target instance's darc is 10, the referenced write
instance's darc is 20; the emitted StateChange carries 10. -/
theorem read_spawn_uses_target_darc_witness :
    contractWr.Spawn sampleRST spawnReadOkv [1] =
      ([⟨Action.create, spawnReadOkv.DeriveID, ContractReadID,
          Value.readV ⟨iidW⟩, 10⟩], [1], none) :=
  (read_spawn_uses_target_darc sampleRST spawnReadOkv [1] (.raw []) 0
    "darcContract" 10 (.readV ⟨iidW⟩) ⟨iidW⟩ (.writeV wrOk) 0 20 rfl rfl rfl
    rfl rfl).1

/-- C2: a well-formed `Invoke("reshare")` fails with `InsufficientOverlap`
exactly when the overlap between the current and new rosters is strictly below
`n - (n-1)/3`, where `n` is the current roster's size; otherwise it succeeds,
emitting one Update StateChange. -/
theorem lts_reshare_threshold (rst : ReadOnlyStateTrie) (inst : InvokeInstr)
    (coins : List Coin) (ver : Nat) (cid : String) (darcID : Nat)
    (curInfo newInfo : LtsInstanceInfo)
    (hgv : getValues rst inst.instanceID =
      .ok (.ltsV curInfo, ver, cid, darcID))
    (hcmd : inst.command = "reshare")
    (harg : argsSearch inst.args "lts_instance_info" =
      some (.ltsV newInfo)) :
    ((contractLTS.Invoke rst inst coins).2.2 = some CalErr.noOverlap ↔
      intersectRosters curInfo.roster newInfo.roster <
        curInfo.roster.list.length - (curInfo.roster.list.length - 1) / 3) ∧
    (¬ intersectRosters curInfo.roster newInfo.roster <
        curInfo.roster.list.length - (curInfo.roster.list.length - 1) / 3 →
      contractLTS.Invoke rst inst coins =
        ([⟨Action.update, inst.instanceID, ContractLongTermSecretID,
            Value.ltsV newInfo, darcID⟩], coins, none)) := by
  constructor
  · by_cases hov : intersectRosters curInfo.roster newInfo.roster <
        curInfo.roster.list.length - (curInfo.roster.list.length - 1) / 3 <;>
      simp [contractLTS.Invoke, hgv, hcmd, harg, decodeLts, hov]
  · intro hov
    simp [contractLTS.Invoke, hgv, hcmd, harg, decodeLts, hov]

/-- Witness for C2 at the spec's concrete sizes: current roster of 7, overlap
4 fails (threshold 5), overlap 5 succeeds with one Update StateChange. -/
theorem lts_reshare_threshold_witness :
    (contractLTS.Invoke sampleRST invokeReshare4 [4]).2.2 =
      some CalErr.noOverlap ∧
    contractLTS.Invoke sampleRST invokeReshare5 [4] =
      ([⟨Action.update, iidLts, ContractLongTermSecretID,
          Value.ltsV ⟨rosterOv5⟩, 40⟩], [4], none) :=
  ⟨(lts_reshare_threshold sampleRST invokeReshare4 [4] 0
      ContractLongTermSecretID 40 ⟨roster7⟩ ⟨rosterOv4⟩ rfl rfl rfl).1.mpr
      (by decide),
    (lts_reshare_threshold sampleRST invokeReshare5 [4] 0
      ContractLongTermSecretID 40 ⟨roster7⟩ ⟨rosterOv5⟩ rfl rfl rfl).2
      (by decide)⟩

/-- C5: reconstructing a Read contract instance from raw stored bytes fails
with the `UnsupportedOperation` condition for every input. -/
theorem read_from_bytes_always_fails (b : Value) :
    contractReadFromBytes b = .error CalErr.readNeverInstantiated := rfl

/-- C9: whenever a Calypso contract operation (Write/Read spawn, LTS spawn,
LTS invoke) returns an error, it returns an empty state-change list. -/
theorem failed_instruction_no_statechanges (rst : ReadOnlyStateTrie)
    (sinst : SpawnInstr) (iinst : InvokeInstr) (coins : List Coin) :
    ((contractWr.Spawn rst sinst coins).2.2 ≠ none →
      (contractWr.Spawn rst sinst coins).1 = []) ∧
    ((contractLTS.Spawn rst sinst coins).2.2 ≠ none →
      (contractLTS.Spawn rst sinst coins).1 = []) ∧
    ((contractLTS.Invoke rst iinst coins).2.2 ≠ none →
      (contractLTS.Invoke rst iinst coins).1 = []) := by
  refine ⟨?_, ?_, ?_⟩
  · unfold contractWr.Spawn
    repeat' split
    all_goals intro h
    all_goals first | rfl | exact absurd rfl h
  · unfold contractLTS.Spawn
    repeat' split
    all_goals intro h
    all_goals first | rfl | exact absurd rfl h
  · unfold contractLTS.Invoke
    dsimp only
    repeat' split
    all_goals intro h
    all_goals first | rfl | exact absurd rfl h

/-- Witness for C9 at concrete failing inputs (empty state trie: every
operation fails and returns no state changes). -/
theorem failed_instruction_no_statechanges_witness :
    (contractWr.Spawn [] spawnWriteOk []).1 = [] ∧
    (contractLTS.Spawn [] spawnWriteOk []).1 = [] ∧
    (contractLTS.Invoke [] invokeReshare4 []).1 = [] :=
  ⟨(failed_instruction_no_statechanges [] spawnWriteOk invokeReshare4 []).1
      (by decide),
    (failed_instruction_no_statechanges [] spawnWriteOk invokeReshare4
      []).2.1 (by decide),
    (failed_instruction_no_statechanges [] spawnWriteOk invokeReshare4
      []).2.2 (by decide)⟩

end Calypso

namespace ChainConfig

/-- C7: the fire-and-forget variant `evolveChainConfig` submits the evolve
transaction and returns without modifying the locally cached configuration,
while `evolveConfigAndWait` replaces the cached configuration with the new one
only after waiting the caller-specified number of finalization rounds without
error; a send-and-wait error is propagated and the swap never happens. -/
theorem evolve_cache_semantics (self : ChainConfigInstance)
    (newConfig : ChainConfigData) (owners : List Signer)
    (ownerCtrs : List Nat) (wait : Nat) :
    (∀ r, evolveChainConfig self newConfig owners ownerCtrs = .ok r →
      r = self ∧ r.chainConfig = self.chainConfig) ∧
    (self.bc.sendTransaction (evolveTx self newConfig owners ownerCtrs) =
        none →
      evolveChainConfig self newConfig owners ownerCtrs = .ok self) ∧
    (∀ r, evolveConfigAndWait self newConfig owners ownerCtrs wait = .ok r →
      r.chainConfig = newConfig) ∧
    (∀ e, self.bc.sendTransactionAndWait
        (evolveTx self newConfig owners ownerCtrs) wait = some e →
      evolveConfigAndWait self newConfig owners ownerCtrs wait =
        .error e) := by
  refine ⟨?_, ?_, ?_, ?_⟩
  · intro r h
    unfold evolveChainConfig at h
    cases hs : self.bc.sendTransaction
        (evolveTx self newConfig owners ownerCtrs) <;>
      rw [hs] at h <;> simp_all
  · intro h
    unfold evolveChainConfig
    rw [h]
  · intro r h
    unfold evolveConfigAndWait at h
    cases hs : self.bc.sendTransactionAndWait
        (evolveTx self newConfig owners ownerCtrs) wait <;>
      rw [hs] at h <;> simp_all
    subst h
    rfl
  · intro e h
    unfold evolveConfigAndWait
    rw [h]

/-- Witness for C7: on a concrete client the fire-and-forget send leaves the
object untouched, a successful wait swaps in the new configuration, and a
failing wait propagates the error. -/
theorem evolve_cache_semantics_witness :
    evolveChainConfig sampleCCI cfgNew [1] [2] = .ok sampleCCI ∧
    ({ sampleCCI with chainConfig := cfgNew } :
      ChainConfigInstance).chainConfig = cfgNew ∧
    evolveConfigAndWait failingCCI cfgNew [1] [2] 3 =
      .error CothErr.comm :=
  ⟨(evolve_cache_semantics sampleCCI cfgNew [1] [2] 3).2.1 rfl,
    (evolve_cache_semantics sampleCCI cfgNew [1] [2] 3).2.2.1
      { sampleCCI with chainConfig := cfgNew } rfl,
    (evolve_cache_semantics failingCCI cfgNew [1] [2] 3).2.2.2
      CothErr.comm rfl⟩

/-- C8: the chain-config loader rejects, with `NotFound`, every instance whose
contract tag is not the chain-configuration tag — whether supplied directly,
extracted from a proof, or fetched by identifier — and load-by-identifier
always queries the all-zero InstanceID. -/
theorem chainconfig_load_guard (bc : ByzCoinRPC) (i : JInstance)
    (p : JProof) :
    (i.contractId ≠ ContractId →
      ChainConfigInstance.make bc i = .error CothErr.notFound) ∧
    ((instanceFromProof p).contractId ≠ ContractId →
      fromByzcoinProof bc p = .error CothErr.notFound) ∧
    (∀ e, bc.fetch zeroInstanceID = .error e → fromByzcoin bc = .error e) ∧
    (bc.fetch zeroInstanceID = .ok i →
      fromByzcoin bc = ChainConfigInstance.make bc i) := by
  refine ⟨?_, ?_, ?_, ?_⟩
  · intro h
    simp [ChainConfigInstance.make, h]
  · intro h
    simp [fromByzcoinProof, ChainConfigInstance.make, h]
  · intro e h
    unfold fromByzcoin
    rw [h]
    rfl
  · intro h
    unfold fromByzcoin
    rw [h]
    rfl

/-- Witness for C8 at concrete instances and RPC endpoints. -/
theorem chainconfig_load_guard_witness :
    ChainConfigInstance.make okRPC badInstance = .error CothErr.notFound ∧
    fromByzcoinProof okRPC ⟨badInstance⟩ = .error CothErr.notFound ∧
    fromByzcoin errRPC = .error CothErr.comm ∧
    fromByzcoin badTagRPC = ChainConfigInstance.make badTagRPC badInstance :=
  ⟨(chainconfig_load_guard okRPC badInstance ⟨badInstance⟩).1 (by decide),
    (chainconfig_load_guard okRPC badInstance ⟨badInstance⟩).2.1 (by decide),
    (chainconfig_load_guard errRPC badInstance ⟨badInstance⟩).2.2.1
      CothErr.comm rfl,
    (chainconfig_load_guard badTagRPC badInstance ⟨badInstance⟩).2.2.2 rfl⟩

end ChainConfig
